import Mathlib

/-!
Verification of the racecar physics simulation core.

The JavaScript source is shallowly embedded over the rationals `ℚ`
(JS doubles are modelled as exact rationals; claims stated "within
numeric tolerance" become exact equalities/inequalities over `ℚ`).
Transcendental library functions (`Math.sin`, `Math.atan`, `Math.atan2`,
`Math.sqrt`, `Math.pow`) are passed in as explicit function parameters,
with the properties actually needed of them (|sin| ≤ 1, sqrt of a
nonnegative number squares back, pow is nonnegative, π/2 ≥ 0) taken as
hypotheses where a theorem depends on them.  All definitions are
executable.
-/

/-- `PHYSICS_CONFIG.gravity` from `Core/PhysicsEngine.js` (9.81). -/
def gravity : ℚ := 981 / 100

/-- `PHYSICS_CONFIG.airDensity` from `Core/PhysicsEngine.js` (1.225). -/
def airDensity : ℚ := 49 / 40

/-- Four per-wheel quantities, ordered FL, FR, RL, RR. -/
structure Wheels4 where
  FL : ℚ
  FR : ℚ
  RL : ℚ
  RR : ℚ
deriving Repr, DecidableEq

namespace WeightTransfer

/-- Vehicle configuration fields read by the weight-transfer model
(`WeightTransfer.js`): mass, wheelbase, front/rear track widths,
CG height, static front/rear weight distribution, spring rates. -/
structure VehicleCfg where
  mass : ℚ
  wheelbase : ℚ
  trackWidthFront : ℚ
  trackWidthRear : ℚ
  cgHeight : ℚ
  wdFront : ℚ
  wdRear : ℚ
  springRateFront : ℚ
  springRateRear : ℚ
deriving Repr, DecidableEq

/-- `WeightTransfer.calculateRollEffect` (`WeightTransfer.js` lines
103-121).  `sinF` stands for `Math.sin`. -/
def calculateRollEffect (sinF : ℚ → ℚ) (v : VehicleCfg) (rollAngle : ℚ) : Wheels4 :=
  let totalWeight := v.mass * gravity
  let rollMoment := totalWeight * v.cgHeight * sinF rollAngle
  let frontRollStiffness := v.springRateFront * (v.trackWidthFront / 2) ^ 2
  let rearRollStiffness := v.springRateRear * (v.trackWidthRear / 2) ^ 2
  let totalRollStiffness := frontRollStiffness + rearRollStiffness
  let frontRollTransfer := (rollMoment * frontRollStiffness / totalRollStiffness) / v.trackWidthFront
  let rearRollTransfer := (rollMoment * rearRollStiffness / totalRollStiffness) / v.trackWidthRear
  { FL := -frontRollTransfer
    FR := frontRollTransfer
    RL := -rearRollTransfer
    RR := rearRollTransfer }

/-- `WeightTransfer.calculatePitchEffect` (`WeightTransfer.js` lines
124-133); returns the per-wheel (front, rear) contributions. -/
def calculatePitchEffect (sinF : ℚ → ℚ) (v : VehicleCfg) (pitchAngle : ℚ) : ℚ × ℚ :=
  let totalWeight := v.mass * gravity
  let pitchMoment := totalWeight * v.cgHeight * sinF pitchAngle
  let pitchTransfer := pitchMoment / v.wheelbase
  (-pitchTransfer / 2, pitchTransfer / 2)

/-- `WeightTransfer.calculateCombined` (`WeightTransfer.js` lines 52-99)
before the final `Math.max(0, ·)` clamp of each wheel load. -/
def calculateCombinedRaw (sinF : ℚ → ℚ) (v : VehicleCfg)
    (lateralG longitudinalG rollAngle pitchAngle : ℚ) : Wheels4 :=
  let totalWeight := v.mass * gravity
  let latTransferFront := (totalWeight * v.wdFront * lateralG * v.cgHeight) / v.trackWidthFront
  let latTransferRear := (totalWeight * v.wdRear * lateralG * v.cgHeight) / v.trackWidthRear
  let longTransfer := (totalWeight * longitudinalG * v.cgHeight) / v.wheelbase
  let staticFront := totalWeight * v.wdFront
  let staticRear := totalWeight * v.wdRear
  let dynamicFront := staticFront - longTransfer
  let dynamicRear := staticRear + longTransfer
  let w0 : Wheels4 :=
    { FL := dynamicFront / 2 - latTransferFront
      FR := dynamicFront / 2 + latTransferFront
      RL := dynamicRear / 2 - latTransferRear
      RR := dynamicRear / 2 + latTransferRear }
  let w1 : Wheels4 :=
    if rollAngle ≠ 0 then
      let re := calculateRollEffect sinF v rollAngle
      { FL := w0.FL + re.FL, FR := w0.FR + re.FR, RL := w0.RL + re.RL, RR := w0.RR + re.RR }
    else w0
  let w2 : Wheels4 :=
    if pitchAngle ≠ 0 then
      let pe := calculatePitchEffect sinF v pitchAngle
      { FL := w1.FL + pe.1, FR := w1.FR + pe.1, RL := w1.RL + pe.2, RR := w1.RR + pe.2 }
    else w1
  w2

/-- The final clamp of `calculateCombined`: every wheel load is forced
to be ≥ 0 (`WeightTransfer.js` lines 95-97). -/
def clampWheels (w : Wheels4) : Wheels4 :=
  { FL := max 0 w.FL, FR := max 0 w.FR, RL := max 0 w.RL, RR := max 0 w.RR }

/-- `WeightTransfer.calculateCombined` (`WeightTransfer.js` lines 52-99). -/
def calculateCombined (sinF : ℚ → ℚ) (v : VehicleCfg)
    (lateralG longitudinalG rollAngle pitchAngle : ℚ) : Wheels4 :=
  clampWheels (calculateCombinedRaw sinF v lateralG longitudinalG rollAngle pitchAngle)

/-- The RX-8 street configuration (`RX8_CONFIG`, `part_001`), restricted
to the fields the weight-transfer model reads. -/
def rx8Vehicle : VehicleCfg :=
  { mass := 1390
    wheelbase := 27 / 10
    trackWidthFront := 3 / 2
    trackWidthRear := 301 / 200
    cgHeight := 9 / 20
    wdFront := 1 / 2
    wdRear := 1 / 2
    springRateFront := 27500
    springRateRear := 20000 }

theorem calculateCombinedRaw_sum (sinF : ℚ → ℚ) (v : VehicleCfg)
    (latG longG roll pitch : ℚ) (hwd : v.wdFront + v.wdRear = 1) :
    (calculateCombinedRaw sinF v latG longG roll pitch).FL +
      (calculateCombinedRaw sinF v latG longG roll pitch).FR +
      (calculateCombinedRaw sinF v latG longG roll pitch).RL +
      (calculateCombinedRaw sinF v latG longG roll pitch).RR = v.mass * gravity := by
  simp only [calculateCombinedRaw, calculateRollEffect, calculatePitchEffect]
  split_ifs <;> linear_combination v.mass * gravity * hwd

end WeightTransfer

/-- C1: for every vehicle configuration with positive mass, wheelbase and
track widths (and a static weight distribution, i.e. front and rear
fractions summing to 1), and all accelerations with |lateralG| ≤ 1 and
|longitudinalG| ≤ 1, whenever every per-wheel load produced by the
combined weight-transfer computation is already non-negative before the
final ≥ 0 clamp (so the clamp changes nothing), the four returned loads
sum exactly to mass × gravity. -/
theorem C1_calculateCombined_conserves_weight (sinF : ℚ → ℚ)
    (v : WeightTransfer.VehicleCfg) (latG longG roll pitch : ℚ)
    (hm : 0 < v.mass) (hw : 0 < v.wheelbase)
    (htf : 0 < v.trackWidthFront) (htr : 0 < v.trackWidthRear)
    (hwd : v.wdFront + v.wdRear = 1)
    (hlat : |latG| ≤ 1) (hlong : |longG| ≤ 1)
    (hFL : 0 ≤ (WeightTransfer.calculateCombinedRaw sinF v latG longG roll pitch).FL)
    (hFR : 0 ≤ (WeightTransfer.calculateCombinedRaw sinF v latG longG roll pitch).FR)
    (hRL : 0 ≤ (WeightTransfer.calculateCombinedRaw sinF v latG longG roll pitch).RL)
    (hRR : 0 ≤ (WeightTransfer.calculateCombinedRaw sinF v latG longG roll pitch).RR) :
    (WeightTransfer.calculateCombined sinF v latG longG roll pitch).FL +
      (WeightTransfer.calculateCombined sinF v latG longG roll pitch).FR +
      (WeightTransfer.calculateCombined sinF v latG longG roll pitch).RL +
      (WeightTransfer.calculateCombined sinF v latG longG roll pitch).RR =
      v.mass * gravity := by
  unfold WeightTransfer.calculateCombined WeightTransfer.clampWheels
  rw [max_eq_right hFL, max_eq_right hFR, max_eq_right hRL, max_eq_right hRR]
  exact WeightTransfer.calculateCombinedRaw_sum sinF v latG longG roll pitch hwd

/-- C1 witness: the RX-8 configuration at lateralG = longitudinalG = 1/2,
zero roll and pitch, satisfies every hypothesis of
`C1_calculateCombined_conserves_weight`, and the loads sum to
1390 × 9.81. -/
theorem C1_calculateCombined_conserves_weight_witness :
    (0 < WeightTransfer.rx8Vehicle.mass ∧
     0 < WeightTransfer.rx8Vehicle.wheelbase ∧
     0 < WeightTransfer.rx8Vehicle.trackWidthFront ∧
     0 < WeightTransfer.rx8Vehicle.trackWidthRear ∧
     WeightTransfer.rx8Vehicle.wdFront + WeightTransfer.rx8Vehicle.wdRear = 1 ∧
     |(1 : ℚ) / 2| ≤ 1 ∧
     0 ≤ (WeightTransfer.calculateCombinedRaw (fun _ => 0) WeightTransfer.rx8Vehicle
        (1/2) (1/2) 0 0).FL ∧
     0 ≤ (WeightTransfer.calculateCombinedRaw (fun _ => 0) WeightTransfer.rx8Vehicle
        (1/2) (1/2) 0 0).FR ∧
     0 ≤ (WeightTransfer.calculateCombinedRaw (fun _ => 0) WeightTransfer.rx8Vehicle
        (1/2) (1/2) 0 0).RL ∧
     0 ≤ (WeightTransfer.calculateCombinedRaw (fun _ => 0) WeightTransfer.rx8Vehicle
        (1/2) (1/2) 0 0).RR) ∧
    (WeightTransfer.calculateCombined (fun _ => 0) WeightTransfer.rx8Vehicle
        (1/2) (1/2) 0 0).FL +
      (WeightTransfer.calculateCombined (fun _ => 0) WeightTransfer.rx8Vehicle
        (1/2) (1/2) 0 0).FR +
      (WeightTransfer.calculateCombined (fun _ => 0) WeightTransfer.rx8Vehicle
        (1/2) (1/2) 0 0).RL +
      (WeightTransfer.calculateCombined (fun _ => 0) WeightTransfer.rx8Vehicle
        (1/2) (1/2) 0 0).RR =
      WeightTransfer.rx8Vehicle.mass * gravity := by
  refine ⟨⟨by norm_num [WeightTransfer.rx8Vehicle], by norm_num [WeightTransfer.rx8Vehicle],
    by norm_num [WeightTransfer.rx8Vehicle], by norm_num [WeightTransfer.rx8Vehicle],
    by norm_num [WeightTransfer.rx8Vehicle], by norm_num [abs_le],
    ?_, ?_, ?_, ?_⟩, ?_⟩
  · norm_num [WeightTransfer.calculateCombinedRaw, WeightTransfer.rx8Vehicle, gravity]
  · norm_num [WeightTransfer.calculateCombinedRaw, WeightTransfer.rx8Vehicle, gravity]
  · norm_num [WeightTransfer.calculateCombinedRaw, WeightTransfer.rx8Vehicle, gravity]
  · norm_num [WeightTransfer.calculateCombinedRaw, WeightTransfer.rx8Vehicle, gravity]
  · exact C1_calculateCombined_conserves_weight (fun _ => 0) WeightTransfer.rx8Vehicle
      (1/2) (1/2) 0 0
      (by norm_num [WeightTransfer.rx8Vehicle]) (by norm_num [WeightTransfer.rx8Vehicle])
      (by norm_num [WeightTransfer.rx8Vehicle]) (by norm_num [WeightTransfer.rx8Vehicle])
      (by norm_num [WeightTransfer.rx8Vehicle]) (by norm_num [abs_le]) (by norm_num [abs_le])
      (by norm_num [WeightTransfer.calculateCombinedRaw, WeightTransfer.rx8Vehicle, gravity])
      (by norm_num [WeightTransfer.calculateCombinedRaw, WeightTransfer.rx8Vehicle, gravity])
      (by norm_num [WeightTransfer.calculateCombinedRaw, WeightTransfer.rx8Vehicle, gravity])
      (by norm_num [WeightTransfer.calculateCombinedRaw, WeightTransfer.rx8Vehicle, gravity])

namespace TireModel

/-- Tire configuration fields read by the tire model (`tire` blocks of
`RX8_CONFIG` / `F1_CONFIG` plus Pacejka coefficients). -/
structure TireCfg where
  peakMu : ℚ
  loadSensitivity : ℚ
  pacejkaB : ℚ
  pacejkaC : ℚ
  pacejkaD : ℚ
  pacejkaE : ℚ
deriving Repr, DecidableEq

/-- The RX-8 tire parameter set (`RX8_CONFIG.tire`, `part_001`). -/
def rx8Tire : TireCfg :=
  { peakMu := 23 / 20
    loadSensitivity := 4 / 5
    pacejkaB := 10
    pacejkaC := 3 / 2
    pacejkaD := 23 / 20
    pacejkaE := 97 / 100 }

/-- The F1 tire parameter set (`F1_CONFIG.tire`, `part_001`). -/
def f1Tire : TireCfg :=
  { peakMu := 9 / 5
    loadSensitivity := 7 / 10
    pacejkaB := 12
    pacejkaC := 9 / 5
    pacejkaD := 9 / 5
    pacejkaE := 19 / 20 }

/-- `TireModel.calculateForce` (`part_000` lines 15-33): the Pacejka
magic formula.  `powF` stands for `Math.pow`, `sinF` for `Math.sin`,
`atanF` for `Math.atan`. -/
def calculateForce (powF : ℚ → ℚ → ℚ) (sinF atanF : ℚ → ℚ)
    (slip load : ℚ) (tc : TireCfg) : ℚ :=
  let normalizedLoad := load / (981 / 100 * 250)
  let loadFactor := powF normalizedLoad tc.loadSensitivity
  let B := tc.pacejkaB
  let C := tc.pacejkaC
  let D := tc.pacejkaD * load * loadFactor
  let E := tc.pacejkaE
  let Bx := B * slip
  D * sinF (C * atanF (Bx - E * (Bx - atanF Bx)))

/-- `TireModel.calculateCombinedForce` (`part_000` lines 36-58),
returning the (lateral, longitudinal) force pair.  `sqrtF` stands for
`Math.sqrt`.  The `combinedSlip` and `utilizationRatio` fields of the
JS return object are derived display values and are not modelled. -/
def calculateCombinedForce (powF : ℚ → ℚ → ℚ) (sinF atanF sqrtF : ℚ → ℚ)
    (slipLateral slipLongitudinal load : ℚ) (tc : TireCfg) : ℚ × ℚ :=
  let combinedSlip := sqrtF (slipLateral * slipLateral + slipLongitudinal * slipLongitudinal)
  if combinedSlip < 1 / 1000 then (0, 0)
  else
    let totalForce := calculateForce powF sinF atanF combinedSlip load tc
    let ratio := totalForce / combinedSlip
    (slipLateral * ratio, slipLongitudinal * ratio)

/-- `TireModel.calculateSlipAngle` (`part_000` lines 61-72).  `atan2F`
stands for `Math.atan2` and `halfPi` for the constant `Math.PI / 2`. -/
def calculateSlipAngle (atan2F : ℚ → ℚ → ℚ) (halfPi : ℚ)
    (lateralVelocity longitudinalVelocity steeringAngle : ℚ) : ℚ :=
  if |longitudinalVelocity| < 1 / 10 then 0
  else
    let slipAngle := atan2F lateralVelocity |longitudinalVelocity| - steeringAngle
    max (-halfPi) (min halfPi slipAngle)

/-- `TireModel.calculateSlipRatio` (`part_000` lines 75-103). -/
def calculateSlipRatio (wheelAngularVelocity vehicleVelocity wheelRadius : ℚ)
    (isBraking : Bool) : ℚ :=
  let wheelLinearVelocity := wheelAngularVelocity * wheelRadius
  if |vehicleVelocity| < 1 / 10 ∧ |wheelLinearVelocity| < 1 / 10 then 0
  else
    let slipRatio :=
      if isBraking = true ∨ wheelLinearVelocity < vehicleVelocity then
        if |vehicleVelocity| < 1 / 10 then -1
        else (wheelLinearVelocity - vehicleVelocity) / |vehicleVelocity|
      else
        if |wheelLinearVelocity| < 1 / 10 then 0
        else (wheelLinearVelocity - vehicleVelocity) / |wheelLinearVelocity|
    max (-1) (min 1 slipRatio)

/-- `TireModel.updateTireTemperature` (`part_000` lines 116-130), with
the instance constants `heatGenerationRate = 0.5`, `coolingRate = 0.1`,
`ambientTemp = 20` inlined. -/
def updateTireTemperature (currentTemp slip load speed deltaTime : ℚ) : ℚ :=
  let slipMagnitude := |slip|
  let heatGeneration := slipMagnitude * load * speed * (1 / 2) * (1 / 10000)
  let coolingFactor := 1 + speed * (1 / 100)
  let cooling := (currentTemp - 20) * (1 / 10) * coolingFactor * deltaTime
  let newTemp := currentTemp + (heatGeneration - cooling) * deltaTime
  max 20 (min 150 newTemp)

end TireModel

/-- C2: for every load L ≥ 0 and all slip inputs, the Euclidean magnitude
of the (lateral, longitudinal) pair returned by `calculateCombinedForce`
is at most peakMu × L × loadFactor, where loadFactor =
pow (L / (9.81 × 250)) loadSensitivity — stated in squared form to avoid
the square root.  The hypotheses on the parameter functions are the
facts the JS library guarantees (|sin| ≤ 1; sqrt of a nonnegative
number is its nonnegative square root; pow of nonnegative arguments is
nonnegative), and `0 ≤ pacejkaD ≤ peakMu` holds for both shipped tire
parameter sets (D = peakMu in each). -/
theorem C2_calculateCombinedForce_friction_circle
    (powF : ℚ → ℚ → ℚ) (sinF atanF sqrtF : ℚ → ℚ)
    (sl sg load : ℚ) (tc : TireModel.TireCfg)
    (hload : 0 ≤ load)
    (hD0 : 0 ≤ tc.pacejkaD) (hDmu : tc.pacejkaD ≤ tc.peakMu)
    (hlf : 0 ≤ powF (load / (981 / 100 * 250)) tc.loadSensitivity)
    (hs0 : 0 ≤ sqrtF (sl * sl + sg * sg))
    (hs2 : sqrtF (sl * sl + sg * sg) * sqrtF (sl * sl + sg * sg) = sl * sl + sg * sg)
    (hsin : ∀ x, |sinF x| ≤ 1) :
    (TireModel.calculateCombinedForce powF sinF atanF sqrtF sl sg load tc).1 ^ 2 +
      (TireModel.calculateCombinedForce powF sinF atanF sqrtF sl sg load tc).2 ^ 2 ≤
      (tc.peakMu * load * powF (load / (981 / 100 * 250)) tc.loadSensitivity) ^ 2 := by
  set lf := powF (load / (981 / 100 * 250)) tc.loadSensitivity with hlfdef
  set cs := sqrtF (sl * sl + sg * sg) with hcs
  simp only [TireModel.calculateCombinedForce]
  rw [← hcs]
  split_ifs with hlt
  · simp only
    have : (0 : ℚ) ≤ (tc.peakMu * load * lf) ^ 2 := sq_nonneg _
    simpa using this
  · simp only
    have hcs0 : cs ≠ 0 := by
      intro h
      rw [h] at hlt
      norm_num at hlt
    have hF : TireModel.calculateForce powF sinF atanF cs load tc =
        tc.pacejkaD * load * lf *
          sinF (tc.pacejkaC * atanF (tc.pacejkaB * cs -
            tc.pacejkaE * (tc.pacejkaB * cs - atanF (tc.pacejkaB * cs)))) := by
      simp only [TireModel.calculateForce]
    set F := TireModel.calculateForce powF sinF atanF cs load tc with hFdef
    have hsq : (sl * (F / cs)) ^ 2 + (sg * (F / cs)) ^ 2 = F ^ 2 := by
      have h1 : (sl * (F / cs)) ^ 2 + (sg * (F / cs)) ^ 2 =
          (sl * sl + sg * sg) * (F / cs) ^ 2 := by ring
      rw [h1, ← hs2]
      field_simp
      ring
    rw [hsq]
    have hsinb : |sinF (tc.pacejkaC * atanF (tc.pacejkaB * cs -
        tc.pacejkaE * (tc.pacejkaB * cs - atanF (tc.pacejkaB * cs))))| ≤ 1 := hsin _
    have hFabs : |F| ≤ tc.peakMu * load * lf := by
      rw [hF, abs_mul]
      have hDll : |tc.pacejkaD * load * lf| = tc.pacejkaD * load * lf := by
        rw [abs_of_nonneg]
        exact mul_nonneg (mul_nonneg hD0 hload) hlf
      rw [hDll]
      calc tc.pacejkaD * load * lf * |sinF _| ≤ tc.pacejkaD * load * lf * 1 := by
            exact mul_le_mul_of_nonneg_left hsinb
              (mul_nonneg (mul_nonneg hD0 hload) hlf)
        _ = tc.pacejkaD * load * lf := by ring
        _ ≤ tc.peakMu * load * lf := by
            exact mul_le_mul_of_nonneg_right
              (mul_le_mul_of_nonneg_right hDmu hload) hlf
    calc F ^ 2 = |F| ^ 2 := (sq_abs F).symm
      _ ≤ (tc.peakMu * load * lf) ^ 2 := by
          exact pow_le_pow_left₀ (abs_nonneg F) hFabs 2

/-- C2 witness: the RX-8 tire set at load 9.81 × 250, slip pair
(3/100, 4/100) (combined slip 5/100), with concrete parameter functions
satisfying the hypotheses at the points used. -/
theorem C2_calculateCombinedForce_friction_circle_witness :
    ((0 : ℚ) ≤ 981 / 100 * 250 ∧
     0 ≤ TireModel.rx8Tire.pacejkaD ∧
     TireModel.rx8Tire.pacejkaD ≤ TireModel.rx8Tire.peakMu ∧
     (0 : ℚ) ≤ 1 ∧
     (0 : ℚ) ≤ 5 / 100 ∧
     (5 : ℚ) / 100 * (5 / 100) = 3 / 100 * (3 / 100) + 4 / 100 * (4 / 100) ∧
     (∀ x : ℚ, |(fun _ : ℚ => (1 : ℚ) / 2) x| ≤ 1)) ∧
    (TireModel.calculateCombinedForce (fun _ _ => 1) (fun _ => 1 / 2) (fun _ => 0)
        (fun _ => 5 / 100) (3 / 100) (4 / 100) (981 / 100 * 250) TireModel.rx8Tire).1 ^ 2 +
      (TireModel.calculateCombinedForce (fun _ _ => 1) (fun _ => 1 / 2) (fun _ => 0)
        (fun _ => 5 / 100) (3 / 100) (4 / 100) (981 / 100 * 250) TireModel.rx8Tire).2 ^ 2 ≤
      (TireModel.rx8Tire.peakMu * (981 / 100 * 250) *
        (fun _ _ => (1 : ℚ)) ((981 / 100 * 250 : ℚ) / (981 / 100 * 250))
          TireModel.rx8Tire.loadSensitivity) ^ 2 := by
  refine ⟨⟨by norm_num, by norm_num [TireModel.rx8Tire], by norm_num [TireModel.rx8Tire],
    by norm_num, by norm_num, by norm_num, fun x => by norm_num [abs_le]⟩, ?_⟩
  exact C2_calculateCombinedForce_friction_circle (fun _ _ => 1) (fun _ => 1 / 2)
    (fun _ => 0) (fun _ => 5 / 100) (3 / 100) (4 / 100) (981 / 100 * 250)
    TireModel.rx8Tire (by norm_num) (by norm_num [TireModel.rx8Tire])
    (by norm_num [TireModel.rx8Tire]) (by norm_num) (by norm_num) (by norm_num)
    (fun x => by norm_num [abs_le])

/-- C4: whenever the combined slip magnitude computed by
`calculateCombinedForce` is below the epsilon 1e-3, the function returns
lateral force = 0 and longitudinal force = 0 via the early-return branch,
so the division by the combined slip magnitude is never performed. -/
theorem C4_calculateCombinedForce_small_slip_zero
    (powF : ℚ → ℚ → ℚ) (sinF atanF sqrtF : ℚ → ℚ)
    (sl sg load : ℚ) (tc : TireModel.TireCfg)
    (hlt : sqrtF (sl * sl + sg * sg) < 1 / 1000) :
    TireModel.calculateCombinedForce powF sinF atanF sqrtF sl sg load tc = (0, 0) := by
  simp only [TireModel.calculateCombinedForce]
  rw [if_pos hlt]

/-- C4 witness: zero slip on both axes with a square root function that
returns 0 there. -/
theorem C4_calculateCombinedForce_small_slip_zero_witness :
    ((fun _ : ℚ => (0 : ℚ)) ((0 : ℚ) * 0 + 0 * 0) < 1 / 1000) ∧
    TireModel.calculateCombinedForce (fun _ _ => 0) (fun _ => 0) (fun _ => 0)
      (fun _ => 0) 0 0 2000 TireModel.rx8Tire = (0, 0) :=
  ⟨by norm_num,
   C4_calculateCombinedForce_small_slip_zero (fun _ _ => 0) (fun _ => 0) (fun _ => 0)
     (fun _ => 0) 0 0 2000 TireModel.rx8Tire (by norm_num)⟩

/-- C5 counterexample: with the vehicle at rest (vehicle velocity = 0)
and the wheel angular velocity also 0 under full braking
(isBraking = true), `TireModel.calculateSlipRatio` returns 0 through the
both-near-zero guard, not -1 as the claim states: the locked-wheel
branch is unreachable when the wheel surface speed is below 0.1. -/
theorem C5_slipRatio_at_rest_counterexample :
    TireModel.calculateSlipRatio 0 0 (323 / 1000) true = 0 ∧
    TireModel.calculateSlipRatio 0 0 (323 / 1000) true ≠ -1 := by
  constructor
  · norm_num [TireModel.calculateSlipRatio]
  · norm_num [TireModel.calculateSlipRatio]

/-- C5 amended: with the vehicle at rest and the wheel angular velocity
also 0 under full braking, the slip-ratio computation returns 0 (the
both-near-zero guard fires before the locked-wheel branch is reached) and
no division by zero occurs; the -1 locked-wheel result is produced at
rest only when the wheel surface speed is at least 0.1. -/
theorem C5_slipRatio_at_rest (wheelRadius : ℚ) :
    TireModel.calculateSlipRatio 0 0 wheelRadius true = 0 ∧
    (∀ omega r : ℚ, ¬ |omega * r| < 1 / 10 →
      TireModel.calculateSlipRatio omega 0 r true = -1) := by
  constructor
  · simp [TireModel.calculateSlipRatio]
  · intro omega r h
    simp only [TireModel.calculateSlipRatio]
    rw [if_neg (fun hc => h hc.2)]
    norm_num


/-- C5 witness: concrete instantiation of both conjuncts of the amended
claim (wheel radius 1; for the locked-wheel conjunct, wheel surface
speed 1 ≥ 0.1). -/
theorem C5_slipRatio_at_rest_witness :
    TireModel.calculateSlipRatio 0 0 1 true = 0 ∧
    (¬ |(1 : ℚ) * 1| < 1 / 10) ∧
    TireModel.calculateSlipRatio 1 0 1 true = -1 :=
  ⟨(C5_slipRatio_at_rest 1).1, by norm_num,
   (C5_slipRatio_at_rest 1).2 1 1 (by norm_num)⟩

namespace VehicleDynamics

/-- `VehicleDynamics.calculateSlipAngle` (`WeightTransfer.js` source,
lines 392-408): `atan(lateralVel / |longitudinalVel|)` minus the
steering angle on front wheels, with NO clamp on the result.  `atanF`
stands for `Math.atan`; `isFront` is `index < 2`. -/
def calculateSlipAngle (atanF : ℚ → ℚ) (lateralVel longitudinalVel steering : ℚ)
    (isFront : Bool) : ℚ :=
  if |longitudinalVel| < 1 / 10 then 0
  else
    let slipAngle := atanF (lateralVel / |longitudinalVel|)
    if isFront then slipAngle - steering else slipAngle

/-- `VehicleDynamics.calculateSlipRatio` (`WeightTransfer.js` source,
lines 410-420): `(wheelLinearVel - vehicleVel) / vehicleVel` with NO
clamp on the result. -/
def calculateSlipRatio (wheelAngularVel wheelRadius vehicleVel : ℚ) : ℚ :=
  let wheelLinearVel := wheelAngularVel * wheelRadius
  if vehicleVel < 1 / 10 then 0
  else (wheelLinearVel - vehicleVel) / vehicleVel

end VehicleDynamics

/-- C3 counterexample: the per-wheel slip-ratio computation of the
vehicle simulation loop (`VehicleDynamics.calculateSlipRatio`) is not
clamped: at wheel angular velocity 100 rad/s, wheel radius 0.323 m and
vehicle speed 1 m/s it returns 31.3, far outside [-1, 1]. -/
theorem C3_vehicleDynamics_slipRatio_counterexample :
    VehicleDynamics.calculateSlipRatio 100 (323 / 1000) 1 = 313 / 10 ∧
    ¬ ((313 : ℚ) / 10 ≤ 1) := by
  constructor
  · norm_num [VehicleDynamics.calculateSlipRatio]
  · norm_num

/-- C3 amended: the tire-model helper functions are always clamped —
`TireModel.calculateSlipRatio` returns a value in [-1, 1] for arbitrary
inputs, and `TireModel.calculateSlipAngle` returns a value in
[-halfPi, halfPi] (halfPi standing for `Math.PI / 2` ≥ 0) for arbitrary
inputs — but the per-wheel slip computations of the vehicle simulation
loop (`VehicleDynamics.calculateSlipAngle` / `calculateSlipRatio`) are
not clamped and can leave those ranges. -/
theorem C3_slip_ranges (omega v r : ℚ) (isBraking : Bool) :
    (-1 ≤ TireModel.calculateSlipRatio omega v r isBraking ∧
      TireModel.calculateSlipRatio omega v r isBraking ≤ 1) ∧
    (∀ (atan2F : ℚ → ℚ → ℚ) (halfPi lv gv sa : ℚ), 0 ≤ halfPi →
      -halfPi ≤ TireModel.calculateSlipAngle atan2F halfPi lv gv sa ∧
        TireModel.calculateSlipAngle atan2F halfPi lv gv sa ≤ halfPi) := by
  constructor
  · simp only [TireModel.calculateSlipRatio]
    split_ifs <;>
      first
        | norm_num
        | exact ⟨le_max_left _ _, max_le (by norm_num) (min_le_left _ _)⟩
  · intro atan2F halfPi lv gv sa hp
    simp only [TireModel.calculateSlipAngle]
    split_ifs with h1
    · constructor <;> linarith
    · constructor
      · exact le_max_left _ _
      · exact max_le (by linarith) (min_le_left _ _)

/-- C3 witness: concrete instantiation of the amended claim at
omega = 1, v = 2, r = 3, braking, and halfPi = 2 with a constant
atan2 function. -/
theorem C3_slip_ranges_witness :
    ((-1 ≤ TireModel.calculateSlipRatio 1 2 3 true ∧
       TireModel.calculateSlipRatio 1 2 3 true ≤ 1) ∧
     (0 : ℚ) ≤ 2 ∧
     (-2 ≤ TireModel.calculateSlipAngle (fun _ _ => 0) 2 1 1 0 ∧
       TireModel.calculateSlipAngle (fun _ _ => 0) 2 1 1 0 ≤ 2)) :=
  ⟨(C3_slip_ranges 1 2 3 true).1, by norm_num,
   (C3_slip_ranges 1 2 3 true).2 (fun _ _ => 0) 2 1 1 0 (by norm_num)⟩

namespace VehicleDynamics

/-- The bracketing-sample search loop inside
`VehicleDynamics.getEngineTorque` (`WeightTransfer.js` source, lines
470-476): returns the first adjacent pair (lower, upper) of (rpm, torque)
samples with lower.rpm ≤ rpm ≤ upper.rpm, if any. -/
def findBracket (rpm : ℚ) : List (ℚ × ℚ) → Option ((ℚ × ℚ) × (ℚ × ℚ))
  | p :: q :: rest =>
    if p.1 ≤ rpm ∧ rpm ≤ q.1 then some (p, q) else findBracket rpm (q :: rest)
  | _ => none

/-- `VehicleDynamics.getEngineTorque` (`WeightTransfer.js` source, lines
461-481).  When no adjacent pair brackets the rpm, the defaults
lower = first sample and upper = last sample are used, and the linear
interpolation formula is applied to them unchanged (an empty curve,
which throws in JS, is mapped to 0). -/
def getEngineTorque (torqueCurve : List (ℚ × ℚ)) (rpm : ℚ) : ℚ :=
  match torqueCurve with
  | [] => 0
  | first :: rest =>
    let lastP := rest.getLastD first
    let lu := (findBracket rpm (first :: rest)).getD (first, lastP)
    let t := (rpm - lu.1.1) / (lu.2.1 - lu.1.1)
    lu.1.2 + t * (lu.2.2 - lu.1.2)

/-- The RX-8 torque curve (`RX8_CONFIG.torqueCurve`, `part_001`). -/
def rx8TorqueCurve : List (ℚ × ℚ) := [(3000, 200), (5500, 216), (8500, 180), (9000, 160)]

/-- The two-sample torque curve of the specification's Scenario B. -/
def twoPointCurve : List (ℚ × ℚ) := [(3000, 200), (5500, 216)]

end VehicleDynamics

/-- C6 counterexample: at rpm = 0, below the first sample of the curve
[(3000, 200), (5500, 216)], `getEngineTorque` returns 180.8 rather than
the first endpoint's torque 200: out-of-range rpm is extrapolated along
the line through the default (first, last) sample pair, not clamped. -/
theorem C6_getEngineTorque_counterexample :
    VehicleDynamics.getEngineTorque VehicleDynamics.twoPointCurve 0 = 904 / 5 ∧
    (904 : ℚ) / 5 ≠ 200 := by
  constructor
  · norm_num [VehicleDynamics.getEngineTorque, VehicleDynamics.findBracket,
      VehicleDynamics.twoPointCurve]
  · norm_num

/-- C6 amended: the engine-torque lookup returns the linear interpolation
between the two bracketing torque-curve samples (first bracketing pair in
curve order); in particular, on the curve [(3000, 200), (5500, 216)],
rpm = 4250 yields 208.  For an rpm below every sample or above every
sample no bracketing pair exists and the lookup linearly EXTRAPOLATES
through the (first, last) sample pair instead of clamping to the
endpoint torque.  Stated on the shipped RX-8 curve
[(3000, 200), (5500, 216), (8500, 180), (9000, 160)]. -/
theorem C6_getEngineTorque_behavior (rpm : ℚ) :
    (VehicleDynamics.getEngineTorque VehicleDynamics.twoPointCurve 4250 = 208) ∧
    (3000 ≤ rpm → rpm ≤ 5500 →
      VehicleDynamics.getEngineTorque VehicleDynamics.rx8TorqueCurve rpm =
        200 + (rpm - 3000) / 2500 * (216 - 200)) ∧
    (5500 < rpm → rpm ≤ 8500 →
      VehicleDynamics.getEngineTorque VehicleDynamics.rx8TorqueCurve rpm =
        216 + (rpm - 5500) / 3000 * (180 - 216)) ∧
    (8500 < rpm → rpm ≤ 9000 →
      VehicleDynamics.getEngineTorque VehicleDynamics.rx8TorqueCurve rpm =
        180 + (rpm - 8500) / 500 * (160 - 180)) ∧
    (rpm < 3000 →
      VehicleDynamics.getEngineTorque VehicleDynamics.rx8TorqueCurve rpm =
        200 + (rpm - 3000) / 6000 * (160 - 200)) ∧
    (9000 < rpm →
      VehicleDynamics.getEngineTorque VehicleDynamics.rx8TorqueCurve rpm =
        200 + (rpm - 3000) / 6000 * (160 - 200)) := by
  refine ⟨?_, ?_, ?_, ?_, ?_, ?_⟩
  · norm_num [VehicleDynamics.getEngineTorque, VehicleDynamics.findBracket,
      VehicleDynamics.twoPointCurve]
  · intro h1 h2
    simp only [VehicleDynamics.getEngineTorque, VehicleDynamics.findBracket,
      VehicleDynamics.rx8TorqueCurve]
    rw [if_pos ⟨h1, h2⟩]
    norm_num
  · intro h1 h2
    simp only [VehicleDynamics.getEngineTorque, VehicleDynamics.findBracket,
      VehicleDynamics.rx8TorqueCurve]
    rw [if_neg (by rintro ⟨-, h⟩; linarith), if_pos ⟨by linarith, h2⟩]
    norm_num
  · intro h1 h2
    simp only [VehicleDynamics.getEngineTorque, VehicleDynamics.findBracket,
      VehicleDynamics.rx8TorqueCurve]
    rw [if_neg (by rintro ⟨-, h⟩; linarith), if_neg (by rintro ⟨-, h⟩; linarith),
      if_pos ⟨by linarith, h2⟩]
    norm_num
  · intro h1
    simp only [VehicleDynamics.getEngineTorque, VehicleDynamics.findBracket,
      VehicleDynamics.rx8TorqueCurve]
    rw [if_neg (by rintro ⟨h, -⟩; linarith), if_neg (by rintro ⟨h, -⟩; linarith),
      if_neg (by rintro ⟨h, -⟩; linarith)]
    norm_num
  · intro h1
    simp only [VehicleDynamics.getEngineTorque, VehicleDynamics.findBracket,
      VehicleDynamics.rx8TorqueCurve]
    rw [if_neg (by rintro ⟨-, h⟩; linarith), if_neg (by rintro ⟨-, h⟩; linarith),
      if_neg (by rintro ⟨-, h⟩; linarith)]
    norm_num

/-- C6 witness: the amended theorem instantiated at rpm = 4250 (the
Scenario B midpoint, 208) and, through its below-range conjunct, at
rpm = 850 (idle), where the result is 185.666… ≠ 200. -/
theorem C6_getEngineTorque_behavior_witness :
    VehicleDynamics.getEngineTorque VehicleDynamics.twoPointCurve 4250 = 208 ∧
    ((3000 : ℚ) ≤ 4250 ∧ (4250 : ℚ) ≤ 5500 ∧
      VehicleDynamics.getEngineTorque VehicleDynamics.rx8TorqueCurve 4250 =
        200 + (4250 - 3000) / 2500 * (216 - 200)) ∧
    ((850 : ℚ) < 3000 ∧
      VehicleDynamics.getEngineTorque VehicleDynamics.rx8TorqueCurve 850 =
        200 + (850 - 3000) / 6000 * (160 - 200)) :=
  ⟨(C6_getEngineTorque_behavior 0).1,
   ⟨by norm_num, by norm_num,
    (C6_getEngineTorque_behavior 4250).2.1 (by norm_num) (by norm_num)⟩,
   ⟨by norm_num,
    (C6_getEngineTorque_behavior 850).2.2.2.2.1 (by norm_num)⟩⟩

namespace VehicleDynamics

/-- The automatic gear-shift rule at the end of
`VehicleDynamics.updateEngine` (`WeightTransfer.js` source, lines
557-562), applied to the already smoothed-and-clamped RPM. -/
def selectGear (gear numGears : ℕ) (rpm maxRPM : ℚ) : ℕ :=
  if rpm > maxRPM * (95 / 100) ∧ gear < numGears then gear + 1
  else if rpm < maxRPM * (1 / 2) ∧ 1 < gear then gear - 1
  else gear

end VehicleDynamics

/-- C7: for a positive maxRPM and a gear index within [1, numGears], the
per-step gear evaluation increments the gear by exactly one iff the RPM
exceeds 95% of maxRPM and a higher gear exists, decrements it by exactly
one iff the RPM is below 50% of maxRPM and a lower gear exists, leaves
it unchanged otherwise, and always returns a gear within [1, numGears];
in particular, from gear 3 of a 6-gear box, rpm = 0.96 × 9000 yields
gear 4 and rpm = 0.4 × 9000 yields gear 2. -/
theorem C7_selectGear_hysteresis (gear numGears : ℕ) (rpm maxRPM : ℚ)
    (hmax : 0 < maxRPM) (hg1 : 1 ≤ gear) (hgn : gear ≤ numGears) :
    ((VehicleDynamics.selectGear gear numGears rpm maxRPM = gear + 1) ↔
      (maxRPM * (95 / 100) < rpm ∧ gear < numGears)) ∧
    ((VehicleDynamics.selectGear gear numGears rpm maxRPM = gear - 1) ↔
      (rpm < maxRPM * (1 / 2) ∧ 1 < gear)) ∧
    ((¬ (maxRPM * (95 / 100) < rpm ∧ gear < numGears) ∧
      ¬ (rpm < maxRPM * (1 / 2) ∧ 1 < gear)) →
      VehicleDynamics.selectGear gear numGears rpm maxRPM = gear) ∧
    (1 ≤ VehicleDynamics.selectGear gear numGears rpm maxRPM ∧
      VehicleDynamics.selectGear gear numGears rpm maxRPM ≤ numGears) ∧
    (VehicleDynamics.selectGear 3 6 (96 / 100 * 9000) 9000 = 4) ∧
    (VehicleDynamics.selectGear 3 6 (4 / 10 * 9000) 9000 = 2) := by
  refine ⟨?_, ?_, ?_, ?_, ?_, ?_⟩
  · simp only [VehicleDynamics.selectGear]
    split_ifs with h1 h2
    · exact iff_of_true rfl ⟨h1.1, h1.2⟩
    · exact iff_of_false (by omega) h1
    · exact iff_of_false (by omega) h1
  · simp only [VehicleDynamics.selectGear]
    split_ifs with h1 h2
    · refine iff_of_false (by omega) ?_
      rintro ⟨hr, -⟩
      have := h1.1
      linarith
    · exact iff_of_true rfl ⟨h2.1, h2.2⟩
    · exact iff_of_false (by omega) h2
  · rintro ⟨n1, n2⟩
    simp only [VehicleDynamics.selectGear]
    rw [if_neg (by rintro ⟨a, b⟩; exact n1 ⟨a, b⟩), if_neg (by rintro ⟨a, b⟩; exact n2 ⟨a, b⟩)]
  · simp only [VehicleDynamics.selectGear]
    split_ifs with h1 h2
    · have := h1.2
      omega
    · have := h2.2
      omega
    · omega
  · norm_num [VehicleDynamics.selectGear]
  · norm_num [VehicleDynamics.selectGear]

/-- C7 witness: maxRPM = 9000, gear 3 of 6, rpm = 8640 = 0.96 × 9000;
the upshift iff holds and fires. -/
theorem C7_selectGear_hysteresis_witness :
    ((0 : ℚ) < 9000 ∧ 1 ≤ 3 ∧ 3 ≤ 6) ∧
    ((VehicleDynamics.selectGear 3 6 8640 9000 = 3 + 1) ↔
      ((9000 : ℚ) * (95 / 100) < 8640 ∧ 3 < 6)) :=
  ⟨⟨by norm_num, by norm_num, by norm_num⟩,
   (C7_selectGear_hysteresis 3 6 8640 9000 (by norm_num) (by norm_num) (by norm_num)).1⟩

namespace VehicleDynamics

/-- Downforce-related configuration, present only on the race archetype
(`F1_CONFIG`): downforce coefficients, fore/aft balance, ground-effect
multiplier and the DRS downforce reduction. -/
structure DownforceCfg where
  front : ℚ
  rear : ℚ
  balance : ℚ
  groundEffectMultiplier : ℚ
  drsDownforceReduction : ℚ
deriving Repr, DecidableEq

/-- Aerodynamic configuration fields read by
`VehicleDynamics.calculateAerodynamicForces`; `downforce = none` models
the street archetype, whose config object has no `downforceCoefficient`
property. -/
structure AeroCfg where
  dragCoefficient : ℚ
  frontalArea : ℚ
  downforce : Option DownforceCfg
deriving Repr, DecidableEq

/-- Result triple of `calculateAerodynamicForces`. -/
structure AeroForces where
  drag : ℚ
  frontDownforce : ℚ
  rearDownforce : ℚ
deriving Repr, DecidableEq

/-- `VehicleDynamics.calculateAerodynamicForces` (`WeightTransfer.js`
source, lines 483-516), as a function of the chassis speed (the JS code
computes `speed = velocity.length()`). -/
def calculateAerodynamicForces (cfg : AeroCfg) (speed : ℚ) (drsActive : Bool) : AeroForces :=
  let speedSquared := speed * speed
  let q := 1 / 2 * airDensity * speedSquared
  let dragForce := q * cfg.dragCoefficient * cfg.frontalArea
  match cfg.downforce with
  | none => { drag := dragForce, frontDownforce := 0, rearDownforce := 0 }
  | some dc =>
    let totalDownforce := q * (dc.front + dc.rear) * cfg.frontalArea
    let groundEffect := if speed > 139 / 10 then dc.groundEffectMultiplier else 1
    let drsMultiplier := if drsActive = true then 1 - dc.drsDownforceReduction else 1
    { drag := dragForce
      frontDownforce := totalDownforce * dc.balance * groundEffect
      rearDownforce := totalDownforce * (1 - dc.balance) * groundEffect * drsMultiplier }

/-- The RX-8 aerodynamic configuration (`RX8_CONFIG`, `part_001`):
dragCoefficient 0.31, frontalArea 2.0, no downforce coefficients. -/
def rx8Aero : AeroCfg :=
  { dragCoefficient := 31 / 100, frontalArea := 2, downforce := none }

end VehicleDynamics

/-- C8: for every speed and DRS flag, when the configuration has no
downforce coefficients (street archetype), the aerodynamic computation
returns frontDownforce = 0 and rearDownforce = 0 while drag is still
1/2 × airDensity × speed² × dragCoefficient × frontalArea. -/
theorem C8_aero_no_downforce (cfg : VehicleDynamics.AeroCfg) (speed : ℚ) (drs : Bool)
    (hnone : cfg.downforce = none) :
    VehicleDynamics.calculateAerodynamicForces cfg speed drs =
      { drag := 1 / 2 * airDensity * (speed * speed) * cfg.dragCoefficient * cfg.frontalArea
        frontDownforce := 0
        rearDownforce := 0 } := by
  simp only [VehicleDynamics.calculateAerodynamicForces, hnone]

/-- C8 witness: the RX-8 aerodynamic configuration at 10 m/s with DRS
off; drag evaluates to 1/2 × 1.225 × 100 × 0.31 × 2 = 18.9875 N. -/
theorem C8_aero_no_downforce_witness :
    VehicleDynamics.rx8Aero.downforce = none ∧
    VehicleDynamics.calculateAerodynamicForces VehicleDynamics.rx8Aero 10 false =
      { drag := 1 / 2 * airDensity * (10 * 10) * VehicleDynamics.rx8Aero.dragCoefficient *
          VehicleDynamics.rx8Aero.frontalArea
        frontDownforce := 0
        rearDownforce := 0 } :=
  ⟨rfl, C8_aero_no_downforce VehicleDynamics.rx8Aero 10 false rfl⟩

namespace VehicleDynamics

/-- The per-wheel tire-temperature step of
`VehicleDynamics.updateTemperatures` (`WeightTransfer.js` source, lines
586-597): heat generation |slipAngle| × load × 0.001, cooling
(temp − 20) × 0.1 × Δt, with NO clamp on the result. -/
def tireTempStep (temp load slipAngle deltaTime : ℚ) : ℚ :=
  let slip := |slipAngle|
  let heatGeneration := slip * load * (1 / 1000)
  let cooling := (temp - 20) * (1 / 10) * deltaTime
  temp + heatGeneration - cooling

/-- `VehicleDynamics.calculateBrakeForce` (`WeightTransfer.js` source,
lines 435-446): front wheels are indices 0-1, rear 2-3; the handbrake
forces full braking on the rear wheels. -/
def calculateBrakeForce (brakeForceFront brakeForceRear brake : ℚ) (handbrake : Bool)
    (wheelIndex : ℕ) : ℚ :=
  let maxBrakeForce := if wheelIndex < 2 then brakeForceFront else brakeForceRear
  let brakeInput := if handbrake = true ∧ 2 ≤ wheelIndex then max brake 1 else brake
  maxBrakeForce * brakeInput

/-- The per-wheel brake-temperature step of
`VehicleDynamics.updateTemperatures` (`WeightTransfer.js` source, lines
600-607): heat generation brakeForce × speed × 0.00001, cooling
(temp − 20) × 0.5 × Δt, with NO clamp on the result. -/
def brakeTempStep (brakeForceFront brakeForceRear brake : ℚ) (handbrake : Bool)
    (speed temp : ℚ) (wheelIndex : ℕ) (deltaTime : ℚ) : ℚ :=
  let brakeForce := calculateBrakeForce brakeForceFront brakeForceRear brake handbrake wheelIndex
  let heatGeneration := brakeForce * speed * (1 / 100000)
  let cooling := (temp - 20) * (1 / 2) * deltaTime
  temp + heatGeneration - cooling

/-- The temperature portion of the per-step vehicle state. -/
structure TempState where
  tireTemps : List ℚ
  brakeTemps : List ℚ
deriving Repr, DecidableEq

/-- `VehicleDynamics.updateTemperatures` (`WeightTransfer.js` source,
lines 584-609).  The per-wheel loads and slip angles computed upstream
in the same step are passed in as lists; the brake-temperature loop runs
only when `brake > 0`. -/
def updateTemperatures (wheelLoads slipAngles : List ℚ) (brake : ℚ) (handbrake : Bool)
    (speed brakeForceFront brakeForceRear : ℚ) (s : TempState) (deltaTime : ℚ) : TempState :=
  { tireTemps := (s.tireTemps.zip (wheelLoads.zip slipAngles)).map
      (fun p => tireTempStep p.1 p.2.1 p.2.2 deltaTime)
    brakeTemps :=
      if brake > 0 then
        s.brakeTemps.enum.map
          (fun p => brakeTempStep brakeForceFront brakeForceRear brake handbrake speed
            p.2 p.1 deltaTime)
      else s.brakeTemps }

end VehicleDynamics

/-- C9 counterexample: the per-step temperature update of the vehicle
state does NOT clamp: starting from the ambient 20°C with wheel load
200000 N and slip angle 1 rad on the front-left wheel (brake released),
one fixed step of 1/60 s stores a front-left tire temperature of 220°C,
above the documented 150°C upper bound. -/
theorem C9_updateTemperatures_counterexample :
    (VehicleDynamics.updateTemperatures [200000, 0, 0, 0] [1, 0, 0, 0] 0 false 0 3500 2000
        { tireTemps := [20, 20, 20, 20], brakeTemps := [20, 20, 20, 20] }
        (1 / 60)).tireTemps = [220, 20, 20, 20] ∧
    ¬ ((220 : ℚ) ≤ 150) := by
  constructor
  · norm_num [VehicleDynamics.updateTemperatures, VehicleDynamics.tireTempStep,
      List.zip, List.zipWith, List.enum]
  · norm_num

/-- C9 amended: the tire-model thermal helper
`TireModel.updateTireTemperature` clamps its result to the documented
range [20°C, 150°C] for all inputs with Δt ≥ 0; the per-step vehicle
state update (`VehicleDynamics.updateTemperatures`) applies no such
clamp, and stored tire/brake temperatures can leave the range (see the
counterexample). -/
theorem C9_updateTireTemperature_clamped (currentTemp slip load speed deltaTime : ℚ)
    (hdt : 0 ≤ deltaTime) :
    20 ≤ TireModel.updateTireTemperature currentTemp slip load speed deltaTime ∧
    TireModel.updateTireTemperature currentTemp slip load speed deltaTime ≤ 150 := by
  simp only [TireModel.updateTireTemperature]
  constructor
  · exact le_max_left _ _
  · exact max_le (by norm_num) (min_le_left _ _)

/-- C9 witness: a hot tire (140°C) under slip 0.1, load 4000 N, speed
30 m/s over a 1/60 s step stays within [20, 150]. -/
theorem C9_updateTireTemperature_clamped_witness :
    (0 : ℚ) ≤ 1 / 60 ∧
    (20 ≤ TireModel.updateTireTemperature 140 (1 / 10) 4000 30 (1 / 60) ∧
      TireModel.updateTireTemperature 140 (1 / 10) 4000 30 (1 / 60) ≤ 150) :=
  ⟨by norm_num, C9_updateTireTemperature_clamped 140 (1 / 10) 4000 30 (1 / 60) (by norm_num)⟩

/-- C10: whenever the brake input is 0 (and the handbrake is not
engaged), a fixed-step temperature update leaves the brake temperatures
exactly unchanged — the brake branch is only entered when brake > 0 —
while every tire temperature is still put through the tire heat/cooling
step. -/
theorem C10_brakeTemps_frozen_when_not_braking
    (wheelLoads slipAngles : List ℚ) (brake : ℚ) (handbrake : Bool)
    (speed brakeForceFront brakeForceRear : ℚ) (s : VehicleDynamics.TempState)
    (deltaTime : ℚ) (hb : brake = 0) (hhb : handbrake = false) :
    (VehicleDynamics.updateTemperatures wheelLoads slipAngles brake handbrake speed
        brakeForceFront brakeForceRear s deltaTime).brakeTemps = s.brakeTemps ∧
    (VehicleDynamics.updateTemperatures wheelLoads slipAngles brake handbrake speed
        brakeForceFront brakeForceRear s deltaTime).tireTemps =
      (s.tireTemps.zip (wheelLoads.zip slipAngles)).map
        (fun p => VehicleDynamics.tireTempStep p.1 p.2.1 p.2.2 deltaTime) := by
  subst hb
  constructor
  · simp only [VehicleDynamics.updateTemperatures]
    rw [if_neg (by norm_num)]
  · simp only [VehicleDynamics.updateTemperatures]

/-- C10 witness: with brake = 0 and handbrake off, a concrete step
leaves the four 200°C brake temperatures untouched while the tire
temperatures advance. -/
theorem C10_brakeTemps_frozen_when_not_braking_witness :
    ((0 : ℚ) = 0 ∧ false = false) ∧
    ((VehicleDynamics.updateTemperatures [3000, 3000, 3000, 3000] [0, 0, 0, 0] 0 false 20
        3500 2000 { tireTemps := [90, 90, 90, 90], brakeTemps := [200, 200, 200, 200] }
        (1 / 60)).brakeTemps = [200, 200, 200, 200] ∧
     (VehicleDynamics.updateTemperatures [3000, 3000, 3000, 3000] [0, 0, 0, 0] 0 false 20
        3500 2000 { tireTemps := [90, 90, 90, 90], brakeTemps := [200, 200, 200, 200] }
        (1 / 60)).tireTemps =
       (([90, 90, 90, 90] : List ℚ).zip ((([3000, 3000, 3000, 3000] : List ℚ)).zip
          ([0, 0, 0, 0] : List ℚ))).map
         (fun p => VehicleDynamics.tireTempStep p.1 p.2.1 p.2.2 (1 / 60))) :=
  ⟨⟨rfl, rfl⟩,
   C10_brakeTemps_frozen_when_not_braking [3000, 3000, 3000, 3000] [0, 0, 0, 0] 0 false 20
     3500 2000 { tireTemps := [90, 90, 90, 90], brakeTemps := [200, 200, 200, 200] }
     (1 / 60) rfl rfl⟩
